import Mathlib

/-!
Shallow embedding of the synthetic-infostealer log generators
(atomic / lumma / redline / stealc / vidar Python scripts) and proofs of
the specification claims about them.

Modelling conventions:
* Python's global `random` module state is made explicit.  A seeded stream
  is modelled as an oracle `Rng := List Nat` of raw draws; `random.seed(n)`
  installs the stream `prng n` where `prng : Nat → Rng` is a parameter
  standing for the Mersenne-Twister family.  Each sampling primitive
  consumes one draw and reduces it to the needed range, which preserves
  exactly the set of outcomes the Python primitives can produce.
* Machine integers are `Nat`/`Int` with explicit `% 2 ^ 32` where MD5
  overflow matters.
* Where Python raises on an empty sequence (`random.choice([])`), the
  embedding returns a neutral default; every claim below only constrains
  the non-crashing inputs.
* `datetime.now()` is modelled as an explicit epoch-seconds argument `now`.
-/

namespace Stealer

/-- JSON-like configuration values, as produced by `json.load`.
`null` also stands for Python `None` (JSON `null` loads as `None`). -/
inductive CVal where
  | null : CVal
  | bool : Bool → CVal
  | num : Int → CVal
  | str : String → CVal
  | arr : List CVal → CVal
  | obj : List (String × CVal) → CVal
deriving BEq, Repr

namespace ConfigurationManager

/-- The nested-key loop of `ConfigurationManager.get` (atomic-generator.py
lines 99-110): for each key, require the current value to be a dict,
fetch the key with `.get` (missing key yields `None`), and return the
default as soon as the value is `None`. -/
def getGo (dflt : CVal) : CVal → List String → CVal
  | v, [] => v
  | .obj fs, k :: ks =>
      match List.lookup k fs with
      | none => dflt
      | some .null => dflt
      | some v' => getGo dflt v' ks
  | _, _ :: _ => dflt

/-- Embeds `ConfigurationManager.get(config_name, *keys, default)`
(atomic-generator.py lines 91-113).  `configs` is the loaded
`self.configs` dict; a missing or `None` domain returns the default.
The surrounding `try/except` returns the default on any error, so the
function is total. -/
def get (configs : List (String × CVal)) (config_name : String)
    (keys : List String) (dflt : CVal) : CVal :=
  match List.lookup config_name configs with
  | none => dflt
  | some .null => dflt
  | some v => getGo dflt v keys

/-- Decides whether the nested-key traversal of `get` succeeds all the
way to a non-`None` value (the complement of every default-returning
path through the loop). -/
def resolvesGo : CVal → List String → Bool
  | _, [] => true
  | .obj fs, k :: ks =>
      match List.lookup k fs with
      | none => false
      | some .null => false
      | some v' => resolvesGo v' ks
  | _, _ :: _ => false

/-- Decides whether `get` finds the domain and resolves the full key
path to a non-`None` value. -/
def resolves (configs : List (String × CVal)) (config_name : String)
    (keys : List String) : Bool :=
  match List.lookup config_name configs with
  | none => false
  | some .null => false
  | some v => resolvesGo v keys

end ConfigurationManager

theorem configGet_default_of_unresolved_aux (dflt : CVal) :
    ∀ (keys : List String) (v : CVal),
      ConfigurationManager.resolvesGo v keys = false →
      ConfigurationManager.getGo dflt v keys = dflt := by
  intro keys
  induction keys with
  | nil =>
      intro v h
      simp [ConfigurationManager.resolvesGo] at h
  | cons k ks ih =>
      intro v h
      cases v with
      | obj fs =>
          simp only [ConfigurationManager.resolvesGo] at h
          simp only [ConfigurationManager.getGo]
          cases hl : List.lookup k fs with
          | none => simp
          | some v' =>
              cases v' with
              | null => simp
              | bool b => rw [hl] at h; exact ih _ h
              | num n => rw [hl] at h; exact ih _ h
              | str s => rw [hl] at h; exact ih _ h
              | arr l => rw [hl] at h; exact ih _ h
              | obj l => rw [hl] at h; exact ih _ h
      | null => simp [ConfigurationManager.getGo]
      | bool b => simp [ConfigurationManager.getGo]
      | num n => simp [ConfigurationManager.getGo]
      | str s => simp [ConfigurationManager.getGo]
      | arr l => simp [ConfigurationManager.getGo]

/-- C4: for every loaded config store, domain, key path and default `D`,
`ConfigurationManager.get` never raises when the domain or path is
missing: whenever the domain is absent, a key on the path is absent, or
traversal hits a non-mapping (or `None`) value — i.e. whenever the path
fails to resolve — it returns `D`.  (The embedding is a total function:
the source's `try/except` returns the default on any internal error.) -/
theorem configGet_returns_default_on_missing_path
    (configs : List (String × CVal)) (config_name : String)
    (keys : List String) (d : CVal)
    (h : ConfigurationManager.resolves configs config_name keys = false) :
    ConfigurationManager.get configs config_name keys d = d := by
  unfold ConfigurationManager.resolves at h
  unfold ConfigurationManager.get
  cases hl : List.lookup config_name configs with
  | none => simp
  | some v =>
      rw [hl] at h
      cases v with
      | null => simp
      | bool b => exact configGet_default_of_unresolved_aux d keys _ h
      | num n => exact configGet_default_of_unresolved_aux d keys _ h
      | str s => exact configGet_default_of_unresolved_aux d keys _ h
      | arr l => exact configGet_default_of_unresolved_aux d keys _ h
      | obj l => exact configGet_default_of_unresolved_aux d keys _ h

/-- Witness for C4 at a concrete input: an empty store with a missing
path returns the supplied default `"D"`. -/
theorem configGet_returns_default_on_missing_path_witness :
    ConfigurationManager.get [] "x" ["missing", "path"] (.str "D") = .str "D" :=
  configGet_returns_default_on_missing_path [] "x" ["missing", "path"] (.str "D")
    (by decide)

/-- C5 counterexample: calling `get` on a never-loaded domain with no
default supplied (Python `default=None`, i.e. `.null`) does not fail
with any distinct error kind: it returns the `None` fallback.  No
`ConfigDomainError` (or any raise on this path) exists in the source;
the function logs a warning and returns the default. -/
theorem configGet_missing_domain_returns_none :
    ConfigurationManager.get [("hardware", .obj [])] "never_loaded" ["k"] .null
      = .null := rfl

/-- C5 amended: when the domain was never loaded, `get` returns the
supplied default — in particular `None` when no default is given —
after logging a warning; it raises nothing. -/
theorem configGet_missing_domain_returns_default
    (configs : List (String × CVal)) (config_name : String)
    (keys : List String) (d : CVal)
    (h : List.lookup config_name configs = none) :
    ConfigurationManager.get configs config_name keys d = d := by
  unfold ConfigurationManager.get
  rw [h]

/-- Witness for the amended C5 at a concrete input. -/
theorem configGet_missing_domain_returns_default_witness :
    ConfigurationManager.get [("hardware", .obj [])] "unloaded" ["a", "b"] .null
      = .null :=
  configGet_missing_domain_returns_default
    [("hardware", .obj [])] "unloaded" ["a", "b"] .null rfl

/-! ### MD5 (hashlib.md5), used by every generator's seed derivation -/

/-- Truncate to 32 bits. -/
def w32 (n : Nat) : Nat := n % 4294967296

/-- Addition modulo 2 ^ 32. -/
def wadd (a b : Nat) : Nat := (a + b) % 4294967296

/-- Bitwise complement on 32 bits. -/
def wnot (a : Nat) : Nat := a ^^^ 4294967295

/-- Rotate a 32-bit word left by `s` bits. -/
def rotl32 (x s : Nat) : Nat := w32 ((x <<< s) ||| (x >>> (32 - s)))

/-- MD5 round function F (rounds 0-15). -/
def md5F (b c d : Nat) : Nat := (b &&& c) ||| (wnot b &&& d)

/-- MD5 round function G (rounds 16-31). -/
def md5G (b c d : Nat) : Nat := (b &&& d) ||| (c &&& wnot d)

/-- MD5 round function H (rounds 32-47). -/
def md5H (b c d : Nat) : Nat := b ^^^ c ^^^ d

/-- MD5 round function I (rounds 48-63). -/
def md5I (b c d : Nat) : Nat := c ^^^ (b ||| wnot d)

/-- The 64 MD5 round constants `K[i] = floor(abs(sin(i+1)) * 2^32)`. -/
def md5K : Array Nat := #[
  0xd76aa478, 0xe8c7b756, 0x242070db, 0xc1bdceee,
  0xf57c0faf, 0x4787c62a, 0xa8304613, 0xfd469501,
  0x698098d8, 0x8b44f7af, 0xffff5bb1, 0x895cd7be,
  0x6b901122, 0xfd987193, 0xa679438e, 0x49b40821,
  0xf61e2562, 0xc040b340, 0x265e5a51, 0xe9b6c7aa,
  0xd62f105d, 0x02441453, 0xd8a1e681, 0xe7d3fbc8,
  0x21e1cde6, 0xc33707d6, 0xf4d50d87, 0x455a14ed,
  0xa9e3e905, 0xfcefa3f8, 0x676f02d9, 0x8d2a4c8a,
  0xfffa3942, 0x8771f681, 0x6d9d6122, 0xfde5380c,
  0xa4beea44, 0x4bdecfa9, 0xf6bb4b60, 0xbebfbc70,
  0x289b7ec6, 0xeaa127fa, 0xd4ef3085, 0x04881d05,
  0xd9d4d039, 0xe6db99e5, 0x1fa27cf8, 0xc4ac5665,
  0xf4292244, 0x432aff97, 0xab9423a7, 0xfc93a039,
  0x655b59c3, 0x8f0ccc92, 0xffeff47d, 0x85845dd1,
  0x6fa87e4f, 0xfe2ce6e0, 0xa3014314, 0x4e0811a1,
  0xf7537e82, 0xbd3af235, 0x2ad7d2bb, 0xeb86d391]

/-- The 64 MD5 per-round left-rotation amounts. -/
def md5S : Array Nat := #[
  7, 12, 17, 22, 7, 12, 17, 22, 7, 12, 17, 22, 7, 12, 17, 22,
  5, 9, 14, 20, 5, 9, 14, 20, 5, 9, 14, 20, 5, 9, 14, 20,
  4, 11, 16, 23, 4, 11, 16, 23, 4, 11, 16, 23, 4, 11, 16, 23,
  6, 10, 15, 21, 6, 10, 15, 21, 6, 10, 15, 21, 6, 10, 15, 21]

/-- MD5 working state. -/
structure MD5St where
  a : Nat
  b : Nat
  c : Nat
  d : Nat
deriving Repr, DecidableEq

/-- MD5 initial state. -/
def md5Init : MD5St := ⟨0x67452301, 0xefcdab89, 0x98badcfe, 0x10325476⟩

/-- One MD5 round `i` (0 ≤ i < 64) on message block `M` (16 words). -/
def md5Round (M : Array Nat) (st : MD5St) (i : Nat) : MD5St :=
  let f :=
    if i < 16 then md5F st.b st.c st.d
    else if i < 32 then md5G st.b st.c st.d
    else if i < 48 then md5H st.b st.c st.d
    else md5I st.b st.c st.d
  let g :=
    if i < 16 then i
    else if i < 32 then (5 * i + 1) % 16
    else if i < 48 then (3 * i + 5) % 16
    else (7 * i) % 16
  let tmp := wadd (wadd (wadd st.a f) (md5K.getD i 0)) (M.getD g 0)
  ⟨st.d, wadd st.b (rotl32 tmp (md5S.getD i 0)), st.b, st.c⟩

/-- Process one 512-bit block through the 64 MD5 rounds and add the
result into the running state. -/
def md5Block (st : MD5St) (M : Array Nat) : MD5St :=
  let r := (List.range 64).foldl (md5Round M) st
  ⟨wadd st.a r.a, wadd st.b r.b, wadd st.c r.c, wadd st.d r.d⟩

/-- Assemble a byte list into little-endian 32-bit words. -/
def bytesToWordsLE : List Nat → List Nat
  | b0 :: b1 :: b2 :: b3 :: rest =>
      (b0 + 256 * b1 + 65536 * b2 + 16777216 * b3) :: bytesToWordsLE rest
  | _ => []

/-- Little-endian 8-byte encoding of a 64-bit length value. -/
def le64 (n : Nat) : List Nat :=
  [n % 256, n >>> 8 % 256, n >>> 16 % 256, n >>> 24 % 256,
   n >>> 32 % 256, n >>> 40 % 256, n >>> 48 % 256, n >>> 56 % 256]

/-- MD5 padding: append `0x80`, zero-pad to 56 mod 64, then the bit
length as 8 little-endian bytes. -/
def md5Pad (msg : List Nat) : List Nat :=
  msg ++ 0x80 :: List.replicate ((119 - msg.length % 64) % 64) 0
      ++ le64 ((8 * msg.length) % 18446744073709551616)

/-- Fold every 64-byte block of the (padded) message into the state. -/
def md5Blocks (st : MD5St) : List Nat → MD5St
  | [] => st
  | b :: rest =>
      md5Blocks (md5Block st (bytesToWordsLE ((b :: rest).take 64)).toArray)
        ((b :: rest).drop 64)
termination_by l => l.length
decreasing_by simp [List.length_drop]; omega

/-- Byte-swap a 32-bit word: the integer denoted by the first 8 hex
characters of `hexdigest()` is the big-endian reading of the
little-endian bytes of the final `a` word. -/
def bswap32 (x : Nat) : Nat :=
  (x % 256) * 16777216 + (x / 256 % 256) * 65536
    + (x / 65536 % 256) * 256 + (x / 16777216 % 256)

/-- UTF-8 encoding of one character (`str.encode()`), as byte values. -/
def utf8Char (c : Char) : List Nat :=
  let n := c.toNat
  if n < 0x80 then [n]
  else if n < 0x800 then [0xC0 + n / 64, 0x80 + n % 64]
  else if n < 0x10000 then
    [0xE0 + n / 4096, 0x80 + n / 64 % 64, 0x80 + n % 64]
  else
    [0xF0 + n / 262144, 0x80 + n / 4096 % 64, 0x80 + n / 64 % 64,
     0x80 + n % 64]

/-- UTF-8 encoding of a string (`str.encode()`). -/
def utf8 (s : String) : List Nat := (s.toList.map utf8Char).flatten

/-- Embeds `int(hashlib.md5(s.encode()).hexdigest()[:8], 16)`: the first four
digest bytes read as a big-endian 32-bit integer. -/
def md5seed32 (s : String) : Nat :=
  bswap32 (md5Blocks md5Init (md5Pad (utf8 s))).a

/-- Embeds `BaseGenerator.get_persona_seed(persona_id, suffix)`
(atomic-generator.py lines 122-126; byte-identical copies in the lumma,
redline and stealc generators): hash of `f"{persona_id}_{suffix}"`. -/
def get_persona_seed (persona_id : String) (suffix : String) : Nat :=
  md5seed32 (persona_id ++ "_" ++ suffix)

/-- Embeds `VidarLogGenerator.get_persona_seed(persona_id, suffix)`
(vidar-generator.py lines 46-48): hash of `f"{persona_id}{suffix}"` —
no separator between the two parts. -/
def vidar_get_persona_seed (persona_id : String) (suffix : String) : Nat :=
  md5seed32 (persona_id ++ suffix)

/-! ### The global `random` module, with its hidden state made explicit -/

/-- Oracle model of a pseudo-random stream: the list of raw draws the
seeded Mersenne Twister will hand to `_randbelow`-style consumers. -/
abbrev Rng := List Nat

/-- Pull one raw draw (0 once the oracle is exhausted; the real stream
is unbounded, and no claim distinguishes the totalization). -/
def rngNext : Rng → Nat × Rng
  | [] => (0, [])
  | d :: r => (d, r)

/-- Embeds `random._randbelow(n)`: a draw reduced to `[0, n)` (for `n > 0`);
every residue is producible by the rejection-sampling original. -/
def randbelow (n : Nat) (r : Rng) : Nat × Rng :=
  let p := rngNext r
  (p.1 % n, p.2)

/-- Embeds `random.randint(a, b)` = `a + _randbelow(b - a + 1)`; Python raises
for `a > b`, a case no claim exercises. -/
def randint (a b : Nat) (r : Rng) : Nat × Rng :=
  let p := randbelow (b - a + 1) r
  (a + p.1, p.2)

/-- Embeds `random.choice(seq)` = `seq[_randbelow(len(seq))]`; on an empty
sequence, where Python raises `IndexError`, the fallback is returned. -/
def choiceD [Inhabited α] (l : List α) (dflt : α) (r : Rng) : α × Rng :=
  let p := randbelow l.length r
  (l.getD p.1 dflt, p.2)

/-- Cumulative-weight selection behind `random.choices(seq, weights)`:
walk the weights until the (total-reduced) draw falls inside one. -/
def pickWeighted : List α → List Nat → Nat → Option α
  | a :: items, w :: ws, x => if x < w then some a else pickWeighted items ws (x - w)
  | _, _, _ => none

/-- Embeds `random.choices(seq, weights=ws)[0]`: one draw over the weight
total; zero-weight items are never picked.  Length mismatch or all-zero
weights (Python errors) yield the fallback. -/
def weightedChoice (l : List α) (ws : List Nat) (dflt : α) (r : Rng) : α × Rng :=
  let p := randbelow ws.sum r
  ((pickWeighted l ws p.1).getD dflt, p.2)

/-- Embeds `random.choices(chars, k=n)` (uniform, with replacement): `n`
single-character draws. -/
def choicesK (chars : List Char) : Nat → Rng → List Char × Rng
  | 0, r => ([], r)
  | n + 1, r =>
      let p := choiceD chars '?' r
      let q := choicesK chars n p.2
      (p.1 :: q.1, q.2)

/-- Embeds `random.sample(l, k)`: `k` distinct positions, drawn one at a time
and removed (an outcome-faithful abstraction of Python's selection-set
algorithm).  `sample([], k > 0)`, where Python raises, returns `[]`. -/
def sampleWR : List α → Nat → Rng → List α × Rng
  | _, 0, r => ([], r)
  | l, k + 1, r =>
      let p := randbelow l.length r
      match l.get? p.1 with
      | none => ([], p.2)
      | some x =>
          let q := sampleWR (l.eraseIdx p.1) k p.2
          (x :: q.1, q.2)

/-- Models `random.random() > 0.5` as one draw's parity (each branch
reachable, as for the float original). -/
def coin (r : Rng) : Bool × Rng :=
  let p := rngNext r
  (p.1 % 2 == 1, p.2)

/-- A persona row from the roster CSV (atomic-generator.py lines 31-65). -/
structure Persona where
  persona_id : String
  first_name : String
  last_name : String
  email_personal : String
  country : String
  city : String
  os : String
  device_type : String
  income_level : String
  primary_browser : String
  secondary_browser : String
  password_habits : String
  persona_archetype : String
deriving DecidableEq, Repr

/-- The ambient process context a generator run executes in: wall-clock
time and the incoming global `random` state.  `get_persona_seed` reads
neither. -/
structure RunCtx where
  now : Int
  rng : Rng

/-- The seed computed during a run: `get_persona_seed` is a pure
function of its two string arguments and reads nothing from the
process context. -/
def seed_in_run (_ctx : RunCtx) (persona_id suffix : String) : Nat :=
  get_persona_seed persona_id suffix

/-- The stream `random.seed(get_persona_seed(...))` installs during a
run, for a Mersenne-Twister family `prng`. -/
def stream_after_seed (prng : Nat → Rng) (ctx : RunCtx)
    (persona_id suffix : String) : Rng :=
  prng (seed_in_run ctx persona_id suffix)

/-- C1: `get_persona_seed(persona_id, suffix)` returns the same integer
on every call — in any two process contexts (so in the same process,
across fresh invocations, and independently of generation order) — and
therefore the stream seeded from it is identical across two runs with
the same `(persona_id, purpose)` pair.  The seed is the MD5-derived
32-bit value of the joined seed string (hence below `2^32`). -/
theorem persona_seed_reproducible (persona_id suffix : String)
    (ctx₁ ctx₂ : RunCtx) (prng : Nat → Rng) :
    seed_in_run ctx₁ persona_id suffix = seed_in_run ctx₂ persona_id suffix
    ∧ stream_after_seed prng ctx₁ persona_id suffix
        = stream_after_seed prng ctx₂ persona_id suffix
    ∧ get_persona_seed persona_id suffix
        = md5seed32 (persona_id ++ "_" ++ suffix)
    ∧ get_persona_seed persona_id suffix < 4294967296 := by
  refine ⟨rfl, rfl, rfl, ?_⟩
  unfold get_persona_seed md5seed32 bswap32
  omega

/-- C10: the Vidar seed derivation concatenates `persona_id` and
`suffix` with no separator, so the two distinct (persona_id, purpose)
pairs `("P1", "2cookies")` and `("P12", "cookies")` hash the same seed
string and derive the identical seed (hence identical streams); the
underscore-separated derivation shared by the other four generators
keeps the two seed strings distinct. -/
theorem vidar_seed_collision :
    ("P1", "2cookies") ≠ (("P12", "cookies") : String × String)
    ∧ vidar_get_persona_seed "P1" "2cookies"
        = vidar_get_persona_seed "P12" "cookies"
    ∧ ("P1" ++ "_" ++ "2cookies" : String) ≠ "P12" ++ "_" ++ "cookies" := by
  refine ⟨by decide, ?_, by decide⟩
  show md5seed32 ("P1" ++ "2cookies") = md5seed32 ("P12" ++ "cookies")
  exact congrArg md5seed32 (by decide)

/-! ### TemplateRenderer -/

/-- Does `pat` begin the list `l`? -/
def headMatches : List Char → List Char → Bool
  | [], _ => true
  | _ :: _, [] => false
  | p :: ps, c :: cs => p = c && headMatches ps cs

/-- Fueled worker for `str.replace`: scan left to right, replacing each
non-overlapping occurrence of `pat` by `v`.  The fuel (instantiated to
the list length) only makes the recursion structural. -/
def replaceGo (pat v : List Char) : Nat → List Char → List Char
  | _, [] => []
  | 0, c :: t => c :: t
  | fuel + 1, c :: t =>
      if pat ≠ [] ∧ headMatches pat (c :: t) then
        v ++ replaceGo pat v fuel (List.drop (pat.length - 1) t)
      else
        c :: replaceGo pat v fuel t

/-- Python `str.replace(pat, v)` on character lists (for the non-empty
patterns the renderer uses). -/
def replaceAllL (pat v l : List Char) : List Char :=
  replaceGo pat v l.length l

/-- The placeholder pattern for variable `key`: `key` wrapped in braces. -/
def patOf (key : String) : List Char :=
  '{' :: key.toList ++ ['}']

/-- The substitution loop of `TemplateRenderer.render`
(atomic-generator.py lines 147-151): one `str.replace` per keyword
argument, applied sequentially in map order. -/
def applyVars (vars : List (String × String)) (t : String) : String :=
  vars.foldl (fun acc kv => String.mk (replaceAllL (patOf kv.1) kv.2.toList acc.toList)) t

/-- Python truthiness of a loaded JSON value. -/
def cvalFalsy : CVal → Bool
  | .null => true
  | .bool b => !b
  | .num n => n == 0
  | .str s => s.isEmpty
  | .arr l => l.isEmpty
  | .obj l => l.isEmpty

namespace TemplateRenderer

/-- Embeds `TemplateRenderer.render(template_name, **kwargs)`
(atomic-generator.py lines 140-151): fetch the template from the
`templates` config domain with default `""`; a falsy template yields
`""` with a warning; otherwise each variable is substituted by a
sequential `str.replace`.  `none` models the `AttributeError` Python
raises when a truthy non-string is stored under the template name. -/
def render (configs : List (String × CVal)) (template_name : String)
    (vars : List (String × String)) : Option String :=
  let t := ConfigurationManager.get configs "templates" [template_name] (.str "")
  if cvalFalsy t then some ""
  else
    match t with
    | .str s => some (applyVars vars s)
    | _ => none

end TemplateRenderer

/-! ### Timestamp formatting (`strftime('%Y-%m-%d %H:%M:%S')`) -/

/-- Zero-pad to two digits. -/
def pad2 (n : Nat) : String := if n < 10 then "0" ++ toString n else toString n

/-- Zero-pad to four digits. -/
def pad4 (n : Nat) : String :=
  if n < 10 then "000" ++ toString n
  else if n < 100 then "00" ++ toString n
  else if n < 1000 then "0" ++ toString n
  else toString n

/-- Civil date from days since the Unix epoch. -/
def civilFromDays (z0 : Int) : Int × Int × Int :=
  let z := z0 + 719468
  let era := (if 0 ≤ z then z else z - 146096) / 146097
  let doe := z - era * 146097
  let yoe := (doe - doe / 1460 + doe / 36524 - doe / 146096) / 365
  let y := yoe + era * 400
  let doy := doe - (365 * yoe + yoe / 4 - yoe / 100)
  let mp := (5 * doy + 2) / 153
  let d := doy - (153 * mp + 2) / 5 + 1
  let m := mp + (if mp < 10 then 3 else -9)
  (y + (if m ≤ 2 then 1 else 0), m, d)

/-- Formats an epoch-seconds value as `strftime('%Y-%m-%d %H:%M:%S')` does. -/
def fmtTimestamp (sec : Int) : String :=
  let days := Int.ediv sec 86400
  let sod := (Int.emod sec 86400).toNat
  let c := civilFromDays days
  pad4 c.1.toNat ++ "-" ++ pad2 c.2.1.toNat ++ "-" ++ pad2 c.2.2.toNat ++ " "
    ++ pad2 (sod / 3600) ++ ":" ++ pad2 (sod % 3600 / 60) ++ ":" ++ pad2 (sod % 60)

/-! ### PasswordGenerator -/

/-- The configuration values `PasswordGenerator` reads (each field named
after the `config.get` call that loads it in the source). -/
structure PwCfg where
  persona_websites : List (String × List String)
  common_websites : List String
  passwords : List (String × List String)
  min_passwords : Nat
  max_passwords : Nat
  login_types : List String
  login_weights : List Nat
deriving Repr

/-- One password record (a `URL:`/`LOGIN:`/`PASSWORD:` triple). -/
structure PwEntry where
  site : String
  login : String
  password : String
deriving DecidableEq, Repr

namespace PasswordGenerator

/-- Embeds `PasswordGenerator._get_sites_for_persona` (lines 277-281):
archetype-specific sites (default `[]`) plus common sites. -/
def get_sites_for_persona (cfg : PwCfg) (p : Persona) : List String :=
  (List.lookup p.persona_archetype cfg.persona_websites).getD [] ++ cfg.common_websites

/-- Embeds `_get_passwords_for_habit` (lines 283-285, same body in
`KeychainGenerator`): the habit's pool, default a one-element list. -/
def get_passwords_for_habit (passwords : List (String × List String))
    (habit : String) : List String :=
  (List.lookup habit passwords).getD ["DefaultPass123!"]

/-- Embeds `PasswordGenerator._generate_login` (lines 287-299). -/
def generate_login (cfg : PwCfg) (p : Persona) (r : Rng) : String × Rng :=
  let pick := weightedChoice cfg.login_types cfg.login_weights "" r
  if pick.1 = "empty" then ("", pick.2)
  else if pick.1 = "email" then (p.email_personal, pick.2)
  else
    let q := randint 100 999 pick.2
    (p.first_name.toLower ++ toString q.1, q.2)

/-- Embeds `PasswordGenerator._select_password` (lines 301-306): the reuse
habit always takes the pool's first element (no draw consumed); any
other habit draws uniformly. -/
def select_password (habit : String) (available : List String) (r : Rng) :
    String × Rng :=
  if habit = "Reuses_Passwords" then (available.headD "", r)
  else choiceD available "" r

/-- The body of the `for _ in range(num_passwords)` loop of
`PasswordGenerator.generate` (lines 257-263), iterated. -/
def entriesLoop (cfg : PwCfg) (p : Persona) : Nat → Rng → List PwEntry × Rng
  | 0, r => ([], r)
  | n + 1, r =>
      let s := choiceD (get_sites_for_persona cfg p) "" r
      let lg := generate_login cfg p s.2
      let pw := select_password p.password_habits
        (get_passwords_for_habit cfg.passwords p.password_habits) lg.2
      let rest := entriesLoop cfg p n pw.2
      (⟨s.1, lg.1, pw.1⟩ :: rest.1, rest.2)

/-- Embeds `PasswordGenerator.generate` (lines 244-265): seed from
`(persona_id, 'passwords')` — discarding the incoming global state —
then emit `randint(min_passwords, max_passwords)` records. -/
def generate (cfg : PwCfg) (p : Persona) (prng : Nat → Rng)
    (_incoming : Rng) : List PwEntry :=
  let r0 := prng (get_persona_seed p.persona_id "passwords")
  let n := randint cfg.min_passwords cfg.max_passwords r0
  (entriesLoop cfg p n.1 n.2).1

/-- The `Passwords.txt` text of one record. -/
def entryText (e : PwEntry) : String :=
  "URL: " ++ e.site ++ "\nLOGIN: " ++ e.login ++ "\nPASSWORD: " ++ e.password

/-- The full `Passwords.txt` content. -/
def generateText (cfg : PwCfg) (p : Persona) (prng : Nat → Rng)
    (incoming : Rng) : String :=
  String.intercalate "\n" ((generate cfg p prng incoming).map entryText)

end PasswordGenerator

/-! ### CookieGenerator -/

/-- The configuration values `CookieGenerator` reads. -/
structure CookieCfg where
  min_cookies : Nat
  max_cookies : Nat
  cookie_domains : List String
  cookie_names : List String
  min_days : Nat
  max_days : Nat
  cookie_value_length : Nat
  cookie_value_chars : List Char
  profiles : List (String × String × String)
deriving Repr

namespace CookieGenerator

/-- Embeds `CookieGenerator._generate_expiration` (lines 358-364):
`datetime.now() + timedelta(days=randint(min_days, max_days))` as an
epoch timestamp — the one place cookie content reads the wall clock. -/
def generate_expiration (cfg : CookieCfg) (now : Int) (r : Rng) : Int × Rng :=
  let d := randint cfg.min_days cfg.max_days r
  (now + d.1 * 86400, d.2)

/-- Embeds `CookieGenerator._generate_cookie_value` (lines 366-371). -/
def generate_cookie_value (cfg : CookieCfg) (r : Rng) : String × Rng :=
  let p := choicesK cfg.cookie_value_chars cfg.cookie_value_length r
  (String.mk p.1, p.2)

/-- One Netscape-format cookie line (loop body of
`_generate_cookies_for_browser`, lines 347-354). -/
def cookieLine (cfg : CookieCfg) (now : Int) (r : Rng) : String × Rng :=
  let dom := choiceD cfg.cookie_domains "" r
  let ex := generate_expiration cfg now dom.2
  let nm := choiceD cfg.cookie_names "" ex.2
  let v := generate_cookie_value cfg nm.2
  (dom.1 ++ "\tTRUE\t/\tTRUE\t" ++ toString ex.1 ++ "\t" ++ nm.1 ++ "\t" ++ v.1,
   v.2)

/-- The `for _ in range(num_cookies)` loop, iterated. -/
def cookiesLoop (cfg : CookieCfg) (now : Int) : Nat → Rng → List String × Rng
  | 0, r => ([], r)
  | n + 1, r =>
      let line := cookieLine cfg now r
      let rest := cookiesLoop cfg now n line.2
      (line.1 :: rest.1, rest.2)

/-- Embeds `CookieGenerator._generate_cookies_for_browser` (lines 337-356):
`randint(min_cookies, max_cookies)` cookie lines. -/
def generate_cookies_for_browser (cfg : CookieCfg) (now : Int) (r : Rng) :
    List String × Rng :=
  let n := randint cfg.min_cookies cfg.max_cookies r
  cookiesLoop cfg now n.1 n.2

/-- Embeds `CookieGenerator._get_browsers_for_persona` (lines 325-335). -/
def get_browsers_for_persona (profiles : List (String × String × String))
    (p : Persona) : List String :=
  (match List.lookup p.primary_browser profiles with
   | some pr => [pr.1]
   | none => [])
  ++ (match List.lookup p.secondary_browser profiles with
      | some pr => [pr.2]
      | none => [])

/-- Embeds `CookieGenerator.generate` (lines 312-323): seed from
`(persona_id, 'cookies')` — discarding the incoming global state —
then one cookie file per applicable browser. -/
def generate (cfg : CookieCfg) (p : Persona) (prng : Nat → Rng)
    (_incoming : Rng) (now : Int) : List (String × String) :=
  let r0 := prng (get_persona_seed p.persona_id "cookies")
  ((get_browsers_for_persona cfg.profiles p).foldl
    (fun acc b =>
      let q := generate_cookies_for_browser cfg now acc.2
      (acc.1 ++ [(b ++ ".txt", String.intercalate "\n" q.1)], q.2))
    (([], r0) : List (String × String) × Rng)).1

end CookieGenerator

/-! ### KeychainGenerator -/

/-- One entry of the `keychain.services` config list. -/
structure KcService where
  account : String
  print_name : String
  service : String
  password_type : String
deriving DecidableEq, Repr

/-- One entry of the `keychain.password_types` config mapping. -/
structure KcPwType where
  source : String
  charset : String
  min_length : Nat
  max_length : Nat
deriving DecidableEq, Repr

/-- The configuration values `KeychainGenerator` reads. -/
structure KcCfg where
  passwords : List (String × List String)
  min_keychain_entries : Nat
  max_keychain_entries : Nat
  services : List KcService
  create_min : Nat
  create_max : Nat
  modify_min : Nat
  modify_max : Nat
  password_types : List (String × KcPwType)
  charsets : List (String × List Char)
  templates : List (String × CVal)
deriving Repr

namespace KeychainGenerator

/-- Embeds `KeychainGenerator._generate_password_for_type` (lines 498-511).
A missing type, where Python would fail on `None['source']`, yields the
final fallback string. -/
def generate_password_for_type (cfg : KcCfg) (habit ptype : String)
    (r : Rng) : String × Rng :=
  match List.lookup ptype cfg.password_types with
  | none => ("DefaultPassword", r)
  | some t =>
      if t.source = "charset" then
        let chars := (List.lookup t.charset cfg.charsets).getD []
        let len := randint t.min_length t.max_length r
        let cs := choicesK chars len.1 len.2
        (String.mk cs.1, cs.2)
      else if t.source = "persona" then
        choiceD (PasswordGenerator.get_passwords_for_habit cfg.passwords habit)
          "" r
      else ("DefaultPassword", r)

/-- Embeds `KeychainGenerator._generate_keychain_entry` (lines 470-496):
account placeholder substitution, two wall-clock-relative timestamps,
a type-dependent password, rendered through the `keychain_entry`
template. -/
def generate_keychain_entry (cfg : KcCfg) (p : Persona) (svc : KcService)
    (now : Int) (r : Rng) : String × Rng :=
  let account :=
    if svc.account = "\x7bemail_prefix\x7d" then
      (p.email_personal.splitOn "@").headD ""
    else svc.account
  let cd := randint cfg.create_min cfg.create_max r
  let md := randint cfg.modify_min cfg.modify_max cd.2
  let create_date : Int := now - cd.1 * 86400
  let modified_date : Int := create_date + md.1 * 86400
  let pw := generate_password_for_type cfg p.password_habits svc.password_type md.2
  ((TemplateRenderer.render cfg.templates "keychain_entry"
      [("create_date", fmtTimestamp create_date),
       ("modified_date", fmtTimestamp modified_date),
       ("print_name", svc.print_name),
       ("account", account),
       ("service", svc.service),
       ("password", pw.1)]).getD "",
   pw.2)

/-- Embeds `KeychainGenerator.generate` (lines 442-464): seed from
`(persona_id, 'keychain')` — discarding the incoming global state —
then `random.choice` over the habit's pool for the headline MacOS
password (NOT the reuse-habit first element), then
`random.sample` over the services for the entries. -/
def generate (cfg : KcCfg) (p : Persona) (prng : Nat → Rng)
    (_incoming : Rng) (now : Int) : String :=
  let r0 := prng (get_persona_seed p.persona_id "keychain")
  let pool := PasswordGenerator.get_passwords_for_habit cfg.passwords
    p.password_habits
  let mac := choiceD pool "" r0
  let base := "MacOS Password:" ++ mac.1 ++ "\n\n"
  let n := randint cfg.min_keychain_entries cfg.max_keychain_entries mac.2
  let sel := sampleWR cfg.services (min n.1 cfg.services.length) n.2
  (sel.1.foldl
    (fun acc svc =>
      let e := generate_keychain_entry cfg p svc now acc.2
      (acc.1 ++ e.1, e.2))
    (base, sel.2)).1

end KeychainGenerator

/-! ### Lumma SystemFilesGenerator.generate_debug_txt -/

/-- The configuration values `generate_debug_txt` reads. -/
structure DebugCfg where
  debug_codes : List String
  debug_optional_codes : List String
deriving Repr

namespace SystemFilesGenerator

/-- Embeds `SystemFilesGenerator.generate_debug_txt` (lumma-generator.py
lines 907-936): `random.seed(random.random())` — "Different each time"
per the source comment — reseeds from a draw of the INCOMING global
stream, so the content depends on the prior global randomness state;
then operation codes with two random numeric lines and an optional
repeated tail. -/
def generate_debug_txt (cfg : DebugCfg) (prng : Nat → Rng)
    (incoming : Rng) : String :=
  let d0 := rngNext incoming
  let r0 := prng d0.1
  let codes := cfg.debug_codes
  let lines0 := [codes.headD ""]
  let step1 :=
    if cfg.debug_optional_codes.isEmpty then (lines0, r0)
    else
      let c := coin r0
      (if c.1 then lines0 ++ cfg.debug_optional_codes else lines0, c.2)
  let lines2 := step1.1 ++ (codes.drop 1).dropLast
  let res := randint 1000 5000 step1.2
  let dat := randint 10000 4000000 res.2
  let lines3 := lines2 ++ ["res - " ++ toString res.1, "dat - " ++ toString dat.1]
  let lines4 := lines3 ++ [codes.getLastD ""]
  let c2 := coin dat.2
  let lines5 :=
    if c2.1 then lines4 ++ (lines4.drop 1).dropLast ++ [codes.getLastD ""]
    else lines4
  String.intercalate "\n" lines5

end SystemFilesGenerator

/-! ### AtomicLogGenerator: output tree and batch loop -/

/-- The `main.file_structure` config mapping. -/
structure FileStructure where
  user_info_filename : String
  passwords_filename : String
  brute_filename : String
  autofills_filename : String
  google_tokens_filename : String
  keychain_filename : String
  cookies_dir : String
deriving DecidableEq, Repr

namespace AtomicLogGenerator

/-- The output root directory `generate_atomic_log` creates
(atomic-generator.py line 635): a pure function of the persona — no
timestamp or run id — created with `os.makedirs(..., exist_ok=True)`. -/
def log_dir (p : Persona) : String :=
  "Atomic_" ++ p.persona_id ++ "_" ++ p.first_name ++ "_" ++ p.last_name

/-- The root directory as computed during a given run: the process
context (clock, randomness state) is not consulted. -/
def log_dir_in_run (_ctx : RunCtx) (p : Persona) : String := log_dir p

/-- The sequence of file paths `generate_atomic_log` writes
(lines 640-666), in write order: six fixed-name files in the root, then
one cookie file per applicable browser under the cookies directory. -/
def write_paths (fs : FileStructure)
    (profiles : List (String × String × String)) (p : Persona) :
    List String :=
  let dir := log_dir p
  [dir ++ "/" ++ fs.user_info_filename,
   dir ++ "/" ++ fs.passwords_filename,
   dir ++ "/" ++ fs.brute_filename,
   dir ++ "/" ++ fs.autofills_filename,
   dir ++ "/" ++ fs.google_tokens_filename,
   dir ++ "/" ++ fs.keychain_filename]
  ++ (CookieGenerator.get_browsers_for_persona profiles p).map
      (fun b => dir ++ "/" ++ fs.cookies_dir ++ "/" ++ b ++ ".txt")

/-- The written paths as computed during a given run: again independent
of the process context. -/
def write_paths_in_run (_ctx : RunCtx) (fs : FileStructure)
    (profiles : List (String × String × String)) (p : Persona) :
    List String :=
  write_paths fs profiles p

/-- Embeds `AtomicLogGenerator.generate_all_atomic_logs` (lines 681-698): the
batch loop over the roster; a raised per-persona failure (`gen p =
.error e`) is caught, logged and skipped, and the loop continues; the
successes' directories are accumulated in roster order. -/
def generate_all_atomic_logs (gen : Persona → Except String String)
    (personas : List Persona) : List String :=
  personas.foldl
    (fun acc p =>
      match gen p with
      | .ok dir => acc ++ [dir]
      | .error _ => acc)
    []

end AtomicLogGenerator

/-! ### Claim C9: the batch loop is fail-soft per item -/

/-- C9: for every roster, a failing persona (`gen p = .error _`) is
caught and skipped and every remaining persona is still processed; the
returned list is exactly the output directories of the successful
personas, in roster order. -/
theorem batch_continues_after_failure (gen : Persona → Except String String)
    (personas : List Persona) :
    AtomicLogGenerator.generate_all_atomic_logs gen personas
      = personas.filterMap (fun p => (gen p).toOption) := by
  unfold AtomicLogGenerator.generate_all_atomic_logs
  have key : ∀ (ps : List Persona) (acc : List String),
      ps.foldl
        (fun acc p =>
          match gen p with
          | .ok dir => acc ++ [dir]
          | .error _ => acc)
        acc
      = acc ++ ps.filterMap (fun p => (gen p).toOption) := by
    intro ps
    induction ps with
    | nil => intro acc; simp
    | cons p ps ih =>
        intro acc
        cases hgp : gen p with
        | ok dir => simp [List.foldl, hgp, ih, Except.toOption]
        | error e => simp [List.foldl, hgp, ih, Except.toOption]
  simpa using key personas []

/-! ### Claim C2: content purity in (persona, purpose, config) -/

/-- C2 amended (positive part): each seeded generator's output is
independent of the incoming global `random` state, because `generate`
begins by reseeding from the persona seed. -/
theorem generators_ignore_incoming_rng_state
    (pcfg : PwCfg) (ccfg : CookieCfg) (kcfg : KcCfg) (p : Persona)
    (prng : Nat → Rng) (now : Int) (s₁ s₂ : Rng) :
    PasswordGenerator.generate pcfg p prng s₁
        = PasswordGenerator.generate pcfg p prng s₂
    ∧ CookieGenerator.generate ccfg p prng s₁ now
        = CookieGenerator.generate ccfg p prng s₂ now
    ∧ KeychainGenerator.generate kcfg p prng s₁ now
        = KeychainGenerator.generate kcfg p prng s₂ now :=
  ⟨rfl, rfl, rfl⟩

/-- Cookie configuration for the C2 counterexample. -/
def exC2CookieCfg : CookieCfg :=
  ⟨1, 1, [".example.com"], ["SESSION_ID"], 30, 365, 2, ['a', 'b'],
   [("Safari", ("Safari", "SafariSecondary"))]⟩

/-- Debug-file configuration for the C2 counterexample. -/
def exC2DebugCfg : DebugCfg := ⟨["reg", "fin"], []⟩

/-- A concrete stream family for the C2 counterexample. -/
def exC2Prng : Nat → Rng := fun n => [n, n, n]

/-- C2 counterexample: generated content is NOT a pure function of
(persona id, purpose, config).  Cookie expirations read the wall clock
(`datetime.now()` in `_generate_expiration`), and Lumma's `Debug.txt`
reseeds from `random.random()` and therefore changes with the prior
global randomness state. -/
theorem content_depends_on_clock_and_prior_state :
    (CookieGenerator.generate_expiration exC2CookieCfg 0 [0]).1
      ≠ (CookieGenerator.generate_expiration exC2CookieCfg 86400 [0]).1
    ∧ SystemFilesGenerator.generate_debug_txt exC2DebugCfg exC2Prng [0]
      ≠ SystemFilesGenerator.generate_debug_txt exC2DebugCfg exC2Prng [1] := by
  exact ⟨by decide, by decide⟩

/-! ### Claim C3: the reuse-habit password invariant -/

theorem entriesLoop_reuse_password (cfg : PwCfg) (p : Persona)
    (hhabit : p.password_habits = "Reuses_Passwords") :
    ∀ (n : Nat) (r : Rng) (e : PwEntry),
      e ∈ (PasswordGenerator.entriesLoop cfg p n r).1 →
      e.password = (PasswordGenerator.get_passwords_for_habit cfg.passwords
        p.password_habits).headD "" := by
  intro n
  induction n with
  | zero => intro r e h; simp [PasswordGenerator.entriesLoop] at h
  | succ n ih =>
      intro r e h
      simp only [PasswordGenerator.entriesLoop, List.mem_cons] at h
      rcases h with h | h
      · subst h
        simp [PasswordGenerator.select_password, hhabit]
      · exact ih _ _ h

/-- C3 amended: for a persona whose `password_habits` is
`"Reuses_Passwords"`, every record emitted by `PasswordGenerator`
(the `Passwords.txt` records, from which `Brute.txt` is derived)
carries the identical password — the first element of the configured
pool.  (The claim fails for the keychain file: see the
counterexample.) -/
theorem reuse_habit_passwords_are_pool_head
    (cfg : PwCfg) (p : Persona) (prng : Nat → Rng) (incoming : Rng)
    (hhabit : p.password_habits = "Reuses_Passwords") :
    ∀ e ∈ PasswordGenerator.generate cfg p prng incoming,
      e.password = (PasswordGenerator.get_passwords_for_habit cfg.passwords
        p.password_habits).headD "" := by
  intro e he
  exact entriesLoop_reuse_password cfg p hhabit _ _ e he

/-- Persona for the C3 theorems: a reuse-habit user. -/
def exC3Persona : Persona :=
  ⟨"P1", "John", "Doe", "john@example.fake", "US", "New York",
   "macOS 14", "Personal_Laptop", "Medium", "Chrome", "Safari",
   "Reuses_Passwords", "Gamer"⟩

/-- Password configuration for the C3 witness: pool
`["Secret1!", "Secret2!"]`, one record. -/
def exC3PwCfg : PwCfg :=
  ⟨[("Gamer", ["https://store.example.fake"])], ["https://mail.example.fake"],
   [("Reuses_Passwords", ["Secret1!", "Secret2!"])], 1, 1, ["empty"], [1]⟩

/-- A concrete stream family for the C3 witness. -/
def exC3Prng : Nat → Rng := fun _ => [0, 0, 0, 0, 0, 0, 0, 0]

/-- Witness for the amended C3 at a concrete input: the one record
generated for the reuse-habit persona carries `"Secret1!"`, the pool's
first element. -/
theorem reuse_habit_passwords_are_pool_head_witness :
    ((PasswordGenerator.generate exC3PwCfg exC3Persona exC3Prng []).headD
      ⟨"", "", ""⟩).password = "Secret1!" := by
  have h := reuse_habit_passwords_are_pool_head exC3PwCfg exC3Persona exC3Prng []
    rfl
  exact (h _ (by decide)).trans (by decide)

/-- Keychain configuration for the C3 counterexample: the reuse pool
`["Secret1!", "Secret2!"]` and no services. -/
def exC3KcCfg : KcCfg :=
  ⟨[("Reuses_Passwords", ["Secret1!", "Secret2!"])], 0, 0, [], 0, 0, 0, 0,
   [], [], []⟩

/-- A stream family whose first draw selects index 1 of a pair. -/
def exC3KcPrng : Nat → Rng := fun _ => [1, 0, 0]

/-- C3 counterexample: the claim fails on `KeychainGenerator.generate`
(lines 442-464), which picks the headline MacOS password with
`random.choice` from the habit's pool even for a reuse-habit persona —
here producing `"Secret2!"`, not the pool's first element
`"Secret1!"`, in the persona's generated output. -/
theorem keychain_breaks_reuse_invariant :
    exC3Persona.password_habits = "Reuses_Passwords"
    ∧ KeychainGenerator.generate exC3KcCfg exC3Persona exC3KcPrng [] 0
        = "MacOS Password:Secret2!\n\n"
    ∧ ("Secret2!" : String) ≠ "Secret1!"
    ∧ (PasswordGenerator.get_passwords_for_habit exC3KcCfg.passwords
        "Reuses_Passwords").headD "" = "Secret1!" := by
  exact ⟨rfl, by decide, by decide, by decide⟩

/-! ### Claim C6: record counts respect the configured range -/

theorem cookiesLoop_length (cfg : CookieCfg) (now : Int) :
    ∀ (n : Nat) (r : Rng), (CookieGenerator.cookiesLoop cfg now n r).1.length = n := by
  intro n
  induction n with
  | zero => intro r; simp [CookieGenerator.cookiesLoop]
  | succ n ih => intro r; simp [CookieGenerator.cookiesLoop, ih]

theorem entriesLoop_length (cfg : PwCfg) (p : Persona) :
    ∀ (n : Nat) (r : Rng), (PasswordGenerator.entriesLoop cfg p n r).1.length = n := by
  intro n
  induction n with
  | zero => intro r; simp [PasswordGenerator.entriesLoop]
  | succ n ih => intro r; simp [PasswordGenerator.entriesLoop, ih]

theorem randint_mem (a b : Nat) (hab : a ≤ b) (r : Rng) :
    a ≤ (randint a b r).1 ∧ (randint a b r).1 ≤ b := by
  have hpos : 0 < b - a + 1 := by omega
  have hlt := Nat.mod_lt (rngNext r).1 hpos
  show a ≤ a + (rngNext r).1 % (b - a + 1)
    ∧ a + (rngNext r).1 % (b - a + 1) ≤ b
  omega

theorem randint_zero_draw (a b : Nat) : (randint a b [0]).1 = a := by
  simp [randint, randbelow, rngNext]

theorem randint_top_draw (a b : Nat) (hab : a ≤ b) :
    (randint a b [b - a]).1 = b := by
  simp only [randint, randbelow, rngNext]
  rw [Nat.mod_eq_of_lt (by omega)]
  omega

/-- C6: for every configured integer range `min ≤ max`, the number of
records emitted — cookie lines per browser file, password records —
always lies in `[min, max]` inclusive, and both endpoints are
attainable (for some draw stream / stream family). -/
theorem record_counts_within_configured_range
    (ccfg : CookieCfg) (pcfg : PwCfg) (p : Persona) (prng : Nat → Rng)
    (incoming : Rng) (now : Int)
    (hc : ccfg.min_cookies ≤ ccfg.max_cookies)
    (hp : pcfg.min_passwords ≤ pcfg.max_passwords) :
    (∀ r : Rng,
      ccfg.min_cookies
          ≤ (CookieGenerator.generate_cookies_for_browser ccfg now r).1.length
      ∧ (CookieGenerator.generate_cookies_for_browser ccfg now r).1.length
          ≤ ccfg.max_cookies)
    ∧ (∃ r : Rng,
        (CookieGenerator.generate_cookies_for_browser ccfg now r).1.length
          = ccfg.min_cookies)
    ∧ (∃ r : Rng,
        (CookieGenerator.generate_cookies_for_browser ccfg now r).1.length
          = ccfg.max_cookies)
    ∧ (pcfg.min_passwords ≤ (PasswordGenerator.generate pcfg p prng incoming).length
      ∧ (PasswordGenerator.generate pcfg p prng incoming).length
          ≤ pcfg.max_passwords)
    ∧ (∃ prng' : Nat → Rng,
        (PasswordGenerator.generate pcfg p prng' incoming).length
          = pcfg.min_passwords)
    ∧ (∃ prng' : Nat → Rng,
        (PasswordGenerator.generate pcfg p prng' incoming).length
          = pcfg.max_passwords) := by
  refine ⟨?_, ?_, ?_, ?_, ?_, ?_⟩
  · intro r
    unfold CookieGenerator.generate_cookies_for_browser
    rw [cookiesLoop_length]
    exact randint_mem _ _ hc r
  · refine ⟨[0], ?_⟩
    unfold CookieGenerator.generate_cookies_for_browser
    rw [cookiesLoop_length, randint_zero_draw]
  · refine ⟨[ccfg.max_cookies - ccfg.min_cookies], ?_⟩
    unfold CookieGenerator.generate_cookies_for_browser
    rw [cookiesLoop_length, randint_top_draw _ _ hc]
  · unfold PasswordGenerator.generate
    rw [entriesLoop_length]
    exact randint_mem _ _ hp _
  · refine ⟨fun _ => [0], ?_⟩
    unfold PasswordGenerator.generate
    rw [entriesLoop_length, randint_zero_draw]
  · refine ⟨fun _ => [pcfg.max_passwords - pcfg.min_passwords], ?_⟩
    unfold PasswordGenerator.generate
    rw [entriesLoop_length, randint_top_draw _ _ hp]

/-- Cookie configuration for the C6 witness: between 2 and 5 cookies. -/
def exC6CookieCfg : CookieCfg :=
  ⟨2, 5, [".example.com"], ["SESSION_ID"], 30, 365, 1, ['a'],
   [("Safari", ("Safari", "SafariSecondary"))]⟩

/-- Password configuration for the C6 witness: between 1 and 3 records. -/
def exC6PwCfg : PwCfg :=
  ⟨[], ["https://mail.example.fake"],
   [("Reuses_Passwords", ["Secret1!"])], 1, 3, ["empty"], [1]⟩

/-- Persona for the C6 witness. -/
def exC6Persona : Persona :=
  ⟨"P2", "Jane", "Roe", "jane@example.fake", "US", "Boston",
   "macOS 14", "Personal_Laptop", "Medium", "Chrome", "Safari",
   "Reuses_Passwords", "Gamer"⟩

/-- Witness for C6 at concrete configurations (ranges [2,5] and
[1,3]). -/
theorem record_counts_within_configured_range_witness :
    (∀ r : Rng,
      exC6CookieCfg.min_cookies
          ≤ (CookieGenerator.generate_cookies_for_browser exC6CookieCfg 0 r).1.length
      ∧ (CookieGenerator.generate_cookies_for_browser exC6CookieCfg 0 r).1.length
          ≤ exC6CookieCfg.max_cookies)
    ∧ (∃ r : Rng,
        (CookieGenerator.generate_cookies_for_browser exC6CookieCfg 0 r).1.length
          = exC6CookieCfg.min_cookies)
    ∧ (∃ r : Rng,
        (CookieGenerator.generate_cookies_for_browser exC6CookieCfg 0 r).1.length
          = exC6CookieCfg.max_cookies)
    ∧ (exC6PwCfg.min_passwords
          ≤ (PasswordGenerator.generate exC6PwCfg exC6Persona (fun _ => [1]) []).length
      ∧ (PasswordGenerator.generate exC6PwCfg exC6Persona (fun _ => [1]) []).length
          ≤ exC6PwCfg.max_passwords)
    ∧ (∃ prng' : Nat → Rng,
        (PasswordGenerator.generate exC6PwCfg exC6Persona prng' []).length
          = exC6PwCfg.min_passwords)
    ∧ (∃ prng' : Nat → Rng,
        (PasswordGenerator.generate exC6PwCfg exC6Persona prng' []).length
          = exC6PwCfg.max_passwords) :=
  record_counts_within_configured_range exC6CookieCfg exC6PwCfg exC6Persona
    (fun _ => [1]) [] 0 (by decide) (by decide)

/-! ### Claim C8: output directory reuse across runs -/

/-- The file-structure configuration for the C8 counterexample. -/
def exC8FileStructure : FileStructure :=
  ⟨"UserInformation.txt", "Passwords.txt", "Brute.txt", "Autofills.txt",
   "GoogleTokens.txt", "keychain.txt", "Cookies"⟩

/-- Persona for the C8 counterexample. -/
def exC8Persona : Persona :=
  ⟨"P1", "John", "Doe", "john@example.fake", "US", "New York",
   "macOS 14", "Personal_Laptop", "Medium", "Safari", "None",
   "Average_Joe", "Gamer"⟩

/-- Cookie configuration for the C8 counterexample. -/
def exC8CookieCfg : CookieCfg :=
  ⟨1, 1, [".example.com"], ["SESSION_ID"], 30, 365, 1, ['a'],
   [("Safari", ("Safari", "SafariSecondary"))]⟩

/-- A concrete stream family for the C8 counterexample. -/
def exC8Prng : Nat → Rng := fun _ => [0, 0, 0, 0, 0, 0, 0, 0]

/-- Two process contexts one day apart (distinct timestamps / run
moments), with identical incoming randomness. -/
def exC8Ctx1 : RunCtx := ⟨0, [0]⟩

/-- The later of the two C8 process contexts. -/
def exC8Ctx2 : RunCtx := ⟨86400, [0]⟩

/-- C8 counterexample: re-running generation for the same persona does
NOT create a distinctly named root directory — the directory name and
the whole list of written paths are identical across two runs at
different times (and the path list is non-empty, so the second run
rewrites files the first wrote; `os.makedirs(..., exist_ok=True)`
reuses the directory).  The rewritten cookie file's content moreover
differs across the runs, so a prior file is genuinely changed, not left
unchanged. -/
theorem rerun_reuses_directory_and_overwrites :
    exC8Ctx1.now ≠ exC8Ctx2.now
    ∧ AtomicLogGenerator.log_dir_in_run exC8Ctx1 exC8Persona
        = AtomicLogGenerator.log_dir_in_run exC8Ctx2 exC8Persona
    ∧ AtomicLogGenerator.write_paths_in_run exC8Ctx1 exC8FileStructure
        exC8CookieCfg.profiles exC8Persona
      = AtomicLogGenerator.write_paths_in_run exC8Ctx2 exC8FileStructure
        exC8CookieCfg.profiles exC8Persona
    ∧ AtomicLogGenerator.write_paths_in_run exC8Ctx1 exC8FileStructure
        exC8CookieCfg.profiles exC8Persona ≠ []
    ∧ CookieGenerator.generate exC8CookieCfg exC8Persona exC8Prng
        exC8Ctx1.rng exC8Ctx1.now
      ≠ CookieGenerator.generate exC8CookieCfg exC8Persona exC8Prng
        exC8Ctx2.rng exC8Ctx2.now := by
  exact ⟨by decide, rfl, rfl, by decide, by decide⟩

/-- C8 amended: re-running generation for the same persona reuses the
same persona-derived root directory name
(`Atomic_{persona_id}_{first}_{last}`, no timestamp or run id) and the
same write-path list, independent of the process context — prior
output files are rewritten in place rather than preserved. -/
theorem log_dir_and_paths_are_run_independent (p : Persona)
    (ctx₁ ctx₂ : RunCtx) (fs : FileStructure)
    (profiles : List (String × String × String)) :
    AtomicLogGenerator.log_dir_in_run ctx₁ p
        = AtomicLogGenerator.log_dir_in_run ctx₂ p
    ∧ AtomicLogGenerator.log_dir p
        = "Atomic_" ++ p.persona_id ++ "_" ++ p.first_name ++ "_"
            ++ p.last_name
    ∧ AtomicLogGenerator.write_paths_in_run ctx₁ fs profiles p
        = AtomicLogGenerator.write_paths_in_run ctx₂ fs profiles p :=
  ⟨rfl, rfl, rfl⟩

/-! ### Claim C7: template substitution semantics -/

/-- First variable whose placeholder begins the list, with its
placeholder length. -/
def findVar (vars : List (String × String)) (l : List Char) :
    Option (String × Nat) :=
  vars.findSome? fun kv =>
    if headMatches (patOf kv.1) l then some (kv.2, (patOf kv.1).length)
    else none

/-- Modelled from the spec: fueled worker for literal SIMULTANEOUS,
non-recursive substitution — scan the template once; at each position
emit a matching variable's value verbatim (never rescanning it) or copy
the character. -/
def substSimGo (vars : List (String × String)) : Nat → List Char → List Char
  | _, [] => []
  | 0, c :: t => c :: t
  | fuel + 1, c :: t =>
      match findVar vars (c :: t) with
      | some (v, n) => v.toList ++ substSimGo vars fuel (List.drop (n - 1) t)
      | none => c :: substSimGo vars fuel t

/-- Modelled from the spec: literal simultaneous, non-recursive
substitution of placeholders, the behaviour the claim ascribes to
`TemplateRenderer.render` (the source performs sequential
`str.replace` calls instead; missing from the code, so built from the
spec's words for comparison). -/
def substSim (vars : List (String × String)) (t : String) : String :=
  String.mk (substSimGo vars t.toList.length t.toList)

/-- Config for the C7 counterexample: one template consisting of the
placeholder for `a`. -/
def exC7Cfg : List (String × CVal) :=
  [("templates", .obj [("t", .str "\x7ba\x7d")])]

/-- Variable map for the C7 counterexample: the value of `a` is itself
the placeholder for `b`. -/
def exC7Vars : List (String × String) := [("a", "\x7bb\x7d"), ("b", "X")]

/-- C7 counterexample: `render` is NOT simultaneous/non-recursive
substitution.  On template `"\x7ba\x7d"` with variables
`a ↦ "\x7bb\x7d"`, `b ↦ "X"`, the sequential `str.replace` loop first
substitutes `a`'s value and then substitutes INSIDE it, producing
`"X"`, while simultaneous non-recursive substitution produces
`"\x7bb\x7d"`. -/
theorem render_not_simultaneous :
    TemplateRenderer.render exC7Cfg "t" exC7Vars = some "X"
    ∧ substSim exC7Vars "\x7ba\x7d" = "\x7bb\x7d"
    ∧ ("X" : String) ≠ "\x7bb\x7d" :=
  ⟨by decide, by decide, by decide⟩

/-! #### Uncovered placeholders survive the sequential substitution -/

/-- The bracketed placeholder of a raw character-list key. -/
def patL (k : List Char) : List Char := '{' :: k ++ ['}']

/-- A key (or identifier) containing no brace character, as every
Python keyword-argument name is. -/
def BraceFree (l : List Char) : Prop := ∀ c ∈ l, c ≠ '{' ∧ c ≠ '}'

/-- Predicate: `p` occurs as a contiguous segment of `l`. -/
def occursIn (p l : List Char) : Prop := ∃ pre post, l = pre ++ p ++ post

instance (l : List Char) : Decidable (BraceFree l) :=
  inferInstanceAs (Decidable (∀ c ∈ l, c ≠ '{' ∧ c ≠ '}'))

theorem patOf_eq_patL (s : String) : patOf s = patL s.toList := rfl

theorem patL_append (k rest : List Char) :
    patL k ++ rest = '{' :: (k ++ '}' :: rest) := by
  simp [patL]

theorem headMatches_exists (p : List Char) :
    ∀ l, headMatches p l = true ↔ ∃ rest, l = p ++ rest := by
  induction p with
  | nil =>
      intro l
      simp [headMatches]
  | cons x p ih =>
      intro l
      cases l with
      | nil => simp [headMatches]
      | cons c t =>
          simp only [headMatches, Bool.and_eq_true, decide_eq_true_eq,
            List.cons_append]
          constructor
          · rintro ⟨hx, hm⟩
            obtain ⟨rest, hrest⟩ := (ih t).1 hm
            exact ⟨rest, by rw [hx, hrest]⟩
          · rintro ⟨rest, h⟩
            injection h with h1 h2
            exact ⟨h1.symm, (ih t).2 ⟨rest, h2⟩⟩

theorem occursIn_cons (p t : List Char) (c : Char) (h : occursIn p t) :
    occursIn p (c :: t) := by
  obtain ⟨pre, post, rfl⟩ := h
  exact ⟨c :: pre, post, rfl⟩

theorem occursIn_append_left (p t u : List Char) (h : occursIn p t) :
    occursIn p (u ++ t) := by
  obtain ⟨pre, post, rfl⟩ := h
  exact ⟨u ++ pre, post, by simp⟩

theorem braceDelim_inj :
    ∀ (j k r r' : List Char), BraceFree j → BraceFree k →
      j ++ '}' :: r = k ++ '}' :: r' → j = k ∧ r = r' := by
  intro j
  induction j with
  | nil =>
      intro k r r' _ hk h
      cases k with
      | nil =>
          injection h with _ h2
          exact ⟨rfl, h2⟩
      | cons b k' =>
          injection h with h1 _
          exact absurd h1.symm (hk b (by simp)).2
  | cons a j' ih =>
      intro k r r' hj hk h
      cases k with
      | nil =>
          injection h with h1 _
          exact absurd h1 (hj a (by simp)).2
      | cons b k' =>
          injection h with h1 h2
          obtain ⟨hjk, hrr⟩ := ih k' r r'
            (fun c hc => hj c (by simp [hc]))
            (fun c hc => hk c (by simp [hc])) h2
          exact ⟨by rw [h1, hjk], hrr⟩

theorem patL_pre_inj (j k s rest : List Char) (hj : BraceFree j)
    (hk : BraceFree k) (h : patL j ++ rest = patL k ++ s) : j = k := by
  rw [patL_append, patL_append] at h
  injection h with _ h2
  exact (braceDelim_inj j k rest s hj hk h2).1

theorem headMatches_patL_false (k : List Char) (c : Char) (t : List Char)
    (hc : c ≠ '{') : headMatches (patL k) (c :: t) = false := by
  simp [patL, headMatches, Ne.symm hc]

theorem replaceGo_congr (pat v : List Char) :
    ∀ (n : Nat) (l : List Char) (f₁ f₂ : Nat),
      l.length ≤ n → l.length ≤ f₁ → l.length ≤ f₂ →
      replaceGo pat v f₁ l = replaceGo pat v f₂ l := by
  intro n
  induction n with
  | zero =>
      intro l f₁ f₂ hn _ _
      have hl : l = [] := List.length_eq_zero.mp (Nat.le_zero.mp hn)
      subst hl
      cases f₁ <;> cases f₂ <;> rfl
  | succ n ih =>
      intro l f₁ f₂ hn h₁ h₂
      cases l with
      | nil => cases f₁ <;> cases f₂ <;> rfl
      | cons c t =>
          simp only [List.length_cons] at hn h₁ h₂
          cases f₁ with
          | zero => omega
          | succ f₁ =>
              cases f₂ with
              | zero => omega
              | succ f₂ =>
                  simp only [replaceGo]
                  split
                  · congr 1
                    have hd := List.length_drop (pat.length - 1) t
                    exact ih (List.drop (pat.length - 1) t) f₁ f₂
                      (by omega) (by omega) (by omega)
                  · congr 1
                    exact ih t f₁ f₂ (by omega) (by omega) (by omega)

theorem replaceAllL_cons (pat v : List Char) (c : Char) (t : List Char) :
    replaceAllL pat v (c :: t) =
      if pat ≠ [] ∧ headMatches pat (c :: t) then
        v ++ replaceAllL pat v (List.drop (pat.length - 1) t)
      else c :: replaceAllL pat v t := by
  show replaceGo pat v (c :: t).length (c :: t) = _
  simp only [List.length_cons, replaceGo]
  split
  · congr 1
    have hd := List.length_drop (pat.length - 1) t
    exact replaceGo_congr pat v t.length _ t.length _ (by omega) (by omega)
      (by omega)
  · rfl

theorem replaceAll_skip (k v : List Char) :
    ∀ (m : List Char), (∀ c ∈ m, c ≠ '{') → ∀ t,
      replaceAllL (patL k) v (m ++ t) = m ++ replaceAllL (patL k) v t := by
  intro m
  induction m with
  | nil => intro _ t; simp
  | cons c m' ih =>
      intro hm t
      rw [List.cons_append, replaceAllL_cons]
      rw [if_neg]
      · rw [ih (fun d hd => hm d (by simp [hd])) t, List.cons_append]
      · have := headMatches_patL_false k c (m' ++ t) (hm c (by simp))
        simp [this]

theorem replaceAll_patL_skip (j k v post : List Char) (hbj : BraceFree j)
    (hbk : BraceFree k) (hne : j ≠ k) :
    replaceAllL (patL k) v (patL j ++ post)
      = patL j ++ replaceAllL (patL k) v post := by
  rw [patL_append, replaceAllL_cons, if_neg]
  · rw [replaceAll_skip k v j (fun c hc => (hbj c hc).1) ('}' :: post)]
    rw [replaceAllL_cons, if_neg]
    · rw [patL_append]
    · have := headMatches_patL_false k '}' post (by decide)
      simp [this]
  · rintro ⟨-, hm⟩
    obtain ⟨rest, hrest⟩ := (headMatches_exists (patL k) _).1 hm
    rw [← patL_append] at hrest
    exact hne (patL_pre_inj j k rest post hbj hbk hrest)

theorem match_confined :
    ∀ (k : List Char), BraceFree k →
      ∀ (pre j post s : List Char), BraceFree j →
        pre ++ (patL j ++ post) = k ++ '}' :: s → k.length + 1 ≤ pre.length := by
  intro k
  induction k with
  | nil =>
      intro _ pre j post s _ h
      cases pre with
      | nil =>
          exfalso
          rw [List.nil_append, patL_append] at h
          injection h with h1 _
          exact absurd h1 (by decide)
      | cons d pre' => simp
  | cons b k' ih =>
      intro hk pre j post s hj h
      cases pre with
      | nil =>
          exfalso
          rw [List.nil_append, patL_append] at h
          injection h with h1 _
          exact absurd h1.symm (hk b (by simp)).1
      | cons d pre' =>
          rw [List.cons_append] at h
          injection h with _ h2
          have := ih (fun c hc => hk c (by simp [hc])) pre' j post s hj h2
          simp only [List.length_cons]
          omega

theorem append_align :
    ∀ (p pre A s : List Char), pre ++ A = p ++ s → p.length ≤ pre.length →
      ∃ pre₂, pre = p ++ pre₂ ∧ s = pre₂ ++ A := by
  intro p
  induction p with
  | nil =>
      intro pre A s h _
      exact ⟨pre, rfl, by simpa using h.symm⟩
  | cons x p' ih =>
      intro pre A s h hlen
      cases pre with
      | nil => simp at hlen
      | cons y pre' =>
          rw [List.cons_append, List.cons_append] at h
          injection h with h1 h2
          obtain ⟨pre₂, hp, hs⟩ := ih pre' A s h2 (by simpa using hlen)
          exact ⟨pre₂, by rw [List.cons_append, h1, hp], hs⟩

theorem occurs_preserved_one (j k v : List Char) (hbj : BraceFree j)
    (hbk : BraceFree k) (hne : j ≠ k) :
    ∀ (n : Nat) (pre post : List Char), pre.length ≤ n →
      occursIn (patL j) (replaceAllL (patL k) v (pre ++ (patL j ++ post))) := by
  intro n
  induction n with
  | zero =>
      intro pre post hn
      have hp : pre = [] := List.length_eq_zero.mp (Nat.le_zero.mp hn)
      subst hp
      rw [List.nil_append, replaceAll_patL_skip j k v post hbj hbk hne]
      exact ⟨[], replaceAllL (patL k) v post, rfl⟩
  | succ n ih =>
      intro pre post hn
      cases pre with
      | nil =>
          rw [List.nil_append, replaceAll_patL_skip j k v post hbj hbk hne]
          exact ⟨[], replaceAllL (patL k) v post, rfl⟩
      | cons c pre' =>
          rw [List.cons_append, replaceAllL_cons]
          by_cases hm :
            headMatches (patL k) (c :: (pre' ++ (patL j ++ post))) = true
          · rw [if_pos ⟨by simp [patL], hm⟩]
            obtain ⟨s, hs⟩ := (headMatches_exists (patL k) _).1 hm
            injection hs with hc1 hs2
            have hs2c : pre' ++ (patL j ++ post) = k ++ '}' :: s := by
              simpa [List.append_assoc, List.singleton_append] using hs2
            have hbound := match_confined k hbk pre' j post s hbj hs2c
            have hlen2 : (k ++ ['}']).length ≤ pre'.length := by
              simp only [List.length_append, List.length_cons,
                List.length_nil]
              omega
            obtain ⟨pre₂, hp2, hs3⟩ :=
              append_align (k ++ ['}']) pre' (patL j ++ post) s hs2 hlen2
            have hdrop :
                List.drop ((patL k).length - 1) (pre' ++ (patL j ++ post))
                  = pre₂ ++ (patL j ++ post) := by
              rw [hp2, List.append_assoc]
              have hlk : (patL k).length - 1 = (k ++ ['}']).length := by
                simp [patL]
              rw [hlk, List.drop_left]
            rw [hdrop]
            apply occursIn_append_left
            apply ih pre₂ post
            have := congrArg List.length hp2
            simp only [List.length_cons, List.length_append,
              List.length_nil] at this hn
            omega
          · rw [if_neg (by simp [hm])]
            apply occursIn_cons
            apply ih pre' post
            simp only [List.length_cons] at hn
            omega

theorem applyVars_preserves (j : String) (hbj : BraceFree j.toList) :
    ∀ (vars : List (String × String)) (t : String),
      (∀ kv ∈ vars, BraceFree kv.1.toList) → (∀ kv ∈ vars, kv.1 ≠ j) →
      occursIn (patOf j) t.toList →
      occursIn (patOf j) (applyVars vars t).toList := by
  intro vars
  induction vars with
  | nil => intro t _ _ h; exact h
  | cons kv vars ih =>
      intro t hk hc h
      have hstep : applyVars (kv :: vars) t
          = applyVars vars
              (String.mk (replaceAllL (patOf kv.1) kv.2.toList t.toList)) := rfl
      rw [hstep]
      apply ih _ (fun x hx => hk x (by simp [hx])) (fun x hx => hc x (by simp [hx]))
      show occursIn (patOf j) (replaceAllL (patOf kv.1) kv.2.toList t.toList)
      obtain ⟨pre, post, hsplit⟩ := h
      rw [patOf_eq_patL] at hsplit ⊢
      rw [patOf_eq_patL]
      have hne : j.toList ≠ kv.1.toList := by
        intro hEq
        exact hc kv (by simp) (String.ext hEq.symm)
      rw [hsplit, List.append_assoc]
      exact occurs_preserved_one j.toList kv.1.toList kv.2.toList hbj
        (hk kv (by simp)) hne pre.length pre post (le_refl _)

/-- C7 amended: `render` substitutes each supplied variable by a
sequential, literal `str.replace`, one key after another in map order
(so a value containing a later key's placeholder is itself substituted
— not simultaneous); it never raises when the stored template is a
string; and every placeholder of a key NOT covered by the map (keys
being brace-free identifiers) still occurs verbatim in the output. -/
theorem render_sequential_keeps_uncovered
    (configs : List (String × CVal)) (template_name : String)
    (vars : List (String × String)) (j tpl : String)
    (hkeys : ∀ kv ∈ vars, BraceFree kv.1.toList)
    (hj : BraceFree j.toList)
    (hcov : ∀ kv ∈ vars, kv.1 ≠ j)
    (htpl : ConfigurationManager.get configs "templates" [template_name]
      (.str "") = .str tpl)
    (hocc : occursIn (patOf j) tpl.toList) :
    ∃ out, TemplateRenderer.render configs template_name vars = some out
      ∧ occursIn (patOf j) out.toList := by
  have htne : tpl ≠ "" := by
    intro hT
    obtain ⟨pre, post, hsplit⟩ := hocc
    rw [hT] at hsplit
    simp [patOf] at hsplit
  refine ⟨applyVars vars tpl, ?_, ?_⟩
  · have hfal : cvalFalsy (.str tpl) = false := by
      simp only [cvalFalsy]
      rw [Bool.eq_false_iff]
      intro hT
      exact htne ((String.isEmpty_iff tpl).mp hT)
    simp only [TemplateRenderer.render, htpl]
    simp [hfal]
  · exact applyVars_preserves j hj vars tpl hkeys hcov hocc

/-- Config for the C7 witness: one template containing the uncovered
placeholder for `j` and the covered placeholder for `a`. -/
def exC7WCfg : List (String × CVal) :=
  [("templates", .obj [("t", .str "hello \x7bj\x7d \x7ba\x7d")])]

/-- Variable map for the C7 witness: covers `a` only. -/
def exC7WVars : List (String × String) := [("a", "1")]

/-- Witness for the amended C7 at a concrete input: rendering
`"hello \x7bj\x7d \x7ba\x7d"` with `a ↦ "1"` succeeds and keeps the
uncovered placeholder of `j` verbatim. -/
theorem render_sequential_keeps_uncovered_witness :
    ∃ out, TemplateRenderer.render exC7WCfg "t" exC7WVars = some out
      ∧ occursIn (patOf "j") out.toList :=
  render_sequential_keeps_uncovered exC7WCfg "t" exC7WVars "j"
    "hello \x7bj\x7d \x7ba\x7d"
    (by decide) (by decide) (by decide) rfl
    ⟨"hello ".toList, " \x7ba\x7d".toList, by decide⟩

end Stealer
